import Mathlib

/-!
# Verification of the chat orchestration core

Shallow embedding of the chat orchestration component of the
`ArquitecturaTaller1` e-commerce backend, together with proofs of the
behavioural properties stated in the specification.

Modelling conventions:

* Python strings are `String`; `str.strip()` is modelled by `pyStrip`,
  which drops whitespace characters from both ends of the character list.
* `datetime` timestamps are modelled as `Nat` (a totally ordered clock);
  successive readings of the wall clock inside one request are supplied as
  explicit parameters, assumed nondecreasing where a property needs it.
* Python's stable `sorted` / SQL `ORDER BY` are modelled with
  `List.mergeSort`, which is stable.
* Fallible operations return `Except String α`; a raised exception is the
  `.error` case carrying the message.
* The generative backend (`model.generate_content_async`) is an external
  collaborator: its outcome is a parameter of type
  `Except String (Option String)` (`.error` = the call raised; `.ok t` =
  the call returned, `t` being the `.text` attribute, `none` when the
  response or its text is `None`).
* The SQL store is modelled as an in-memory append list of rows; inserts
  append, `ORDER BY timestamp DESC` is the stable descending sort.
* `float` prices only ever appear rendered into the prompt text; the
  rendering of a single product line is kept abstract in the price digits
  by storing the price as a `Nat` number of cents (no claim depends on
  float formatting).
-/

/-- `str.strip()` on one side: drop leading whitespace of a char list. -/
def dropWs (l : List Char) : List Char := l.dropWhile Char.isWhitespace

/-- Model of Python `str.strip()`: remove leading and trailing whitespace. -/
def pyStrip (s : String) : String :=
  String.mk ((dropWs ((dropWs s.data).reverse)).reverse)

/-- Model of Python string truthiness `not s`: `s == ""`. -/
def strFalsy (s : String) : Bool := s == ""

/-- Domain entity `ChatMessage` (src/domain/entities.py). `id` is assigned
by the store; `timestamp` is the UTC clock reading, modelled as `Nat`. -/
structure ChatMessage where
  id : Option Nat
  session_id : String
  role : String
  message : String
  timestamp : Nat
deriving Repr, DecidableEq

/-- `ChatMessage.__post_init__` as a validating constructor: the checks of
src/domain/entities.py lines 134-146, in source order; `.error` is the
raised `ValueError`'s message. -/
def mkChatMessage (id : Option Nat) (session_id role message : String)
    (timestamp : Nat) : Except String ChatMessage :=
  if strFalsy session_id || strFalsy (pyStrip session_id) then
    .error "session_id no puede estar vacío"
  else if strFalsy message || strFalsy (pyStrip message) then
    .error "message no puede estar vacío"
  else if role ≠ "user" ∧ role ≠ "assistant" then
    .error "role debe ser 'user' o 'assistant'"
  else
    .ok ⟨id, session_id, role, message, timestamp⟩

/-- `ChatMessage.is_from_user` (entities.py line 148). -/
def ChatMessage.is_from_user (m : ChatMessage) : Bool := m.role == "user"

/-- Timestamp comparison used to model `sorted(recent, key=lambda m: m.timestamp)`. -/
def tsLE (a b : ChatMessage) : Bool := a.timestamp ≤ b.timestamp

/-- Timestamp comparison used to model `ORDER BY timestamp DESC`. -/
def tsGE (a b : ChatMessage) : Bool := b.timestamp ≤ a.timestamp

/-- Value object `ChatContext` (entities.py lines 176-229). `max_messages`
is a Python `int`, so it is an `Int` here (it defaults to 6 but nothing
stops a caller from passing 0 or a negative value). -/
structure ChatContext where
  messages : List ChatMessage
  max_messages : Int := 6

/-- Python slicing `l[s:]` for an arbitrary integer start `s`: a negative
start counts from the end and is clamped at 0, a nonnegative start is
clamped at the length. -/
def pySliceFrom (l : List α) (s : Int) : List α :=
  let n : Int := l.length
  let start : Int := if s < 0 then max (s + n) 0 else min s n
  l.drop start.toNat

/-- `ChatContext.get_recent_messages` (entities.py lines 192-208):
`recent = self.messages[-self.max_messages:]` followed by
`recent if len(recent) == 0 else sorted(recent, key=lambda m: m.timestamp)`. -/
def ChatContext.get_recent_messages (ctx : ChatContext) : List ChatMessage :=
  let recent := pySliceFrom ctx.messages (-ctx.max_messages)
  if recent.length = 0 then recent else recent.mergeSort tsLE

/-- One rendered transcript line of `ChatContext.format_for_prompt`. -/
def renderTurn (m : ChatMessage) : String :=
  (if m.is_from_user then "Usuario" else "Asistente") ++ ": " ++ m.message

/-- `ChatContext.format_for_prompt` (entities.py lines 210-229): one
rendered line per recent message, newline-joined. -/
def ChatContext.format_for_prompt (ctx : ChatContext) : String :=
  String.intercalate "\n" (ctx.get_recent_messages.map renderTurn)

/-- Domain entity `Product` (entities.py lines 5-33). The `float` price is
held as a number of cents already rendered exactly; only its textual form
enters the core (see `format_products_info`). -/
structure Product where
  id : Option Nat
  name : String
  brand : String
  category : String
  size : String
  color : String
  priceCents : Nat
  stock : Nat
  description : String

/-- Rendering of `f"${p.price:.2f}"` over the cents representation. -/
def priceText (cents : Nat) : String :=
  toString (cents / 100) ++ "." ++
    (if cents % 100 < 10 then "0" else "") ++ toString (cents % 100)

/-- `GeminiService.format_products_info` (gemini_service.py lines 119-150):
the "no products" marker for an empty catalog, otherwise one line per
product, newline-joined. -/
def format_products_info (products : List Product) : String :=
  if products.isEmpty then "No hay productos disponibles en este momento."
  else
    String.intercalate "\n" (products.map fun p =>
      "- " ++ p.name ++ " | " ++ p.brand ++ " | $" ++ priceText p.priceCents
        ++ " | Stock: " ++ toString p.stock)

/-- The transcript section text of `GeminiService.generate_response`
(gemini_service.py line 61): `context.format_for_prompt() if context else
"No hay mensajes previos."`. A dataclass instance is always truthy, so the
marker is used exactly when `context` is `None`. -/
def contextTextOf (context : Option ChatContext) : String :=
  match context with
  | some ctx => ctx.format_for_prompt
  | none => "No hay mensajes previos."

/-- Template text before the products section of the prompt f-string of
`GeminiService.generate_response` (gemini_service.py lines 64-84). -/
def promptPart1 : String :=
  "\nEres un asistente virtual experto en ventas de zapatos para un e-commerce.\n"
    ++ "Tu objetivo es ayudar a los clientes a encontrar los zapatos perfectos.\n"
    ++ "\nPRODUCTOS DISPONIBLES:\n"

/-- Template text between the products section and the prior-conversation
section of the prompt. -/
def promptPart2 : String :=
  "\n\nINSTRUCCIONES:\n- Sé amigable y profesional\n"
    ++ "- Usa el contexto de la conversación anterior\n"
    ++ "- Recomienda productos específicos cuando sea apropiado\n"
    ++ "- Menciona precios, tallas y disponibilidad\n"
    ++ "- Si no tienes información, sé honesto\n"
    ++ "\nCONVERSACIÓN ANTERIOR:\n"

/-- Template text between the prior-conversation section and the user
message. -/
def promptPart3 : String := "\n\nUsuario: "

/-- Template text after the user message. -/
def promptPart4 : String := "\n\nAsistente:\n"

/-- The prompt f-string of `GeminiService.generate_response`
(gemini_service.py lines 64-84), verbatim: fixed template with the three
inputs substituted. -/
def promptTemplate (products_text context_text user_message : String) : String :=
  promptPart1 ++ products_text ++ promptPart2 ++ context_text
    ++ promptPart3 ++ user_message ++ promptPart4

/-- The prompt that `GeminiService.generate_response` assembles and sends
to the backend for given inputs. -/
def assembledPrompt (user_message : String) (products : List Product)
    (context : Option ChatContext) : String :=
  promptTemplate (format_products_info products) (contextTextOf context) user_message

/-- `GeminiService._generate_text` (gemini_service.py lines 96-116), with
the backend call's outcome as a parameter: on a raised error the
`ChatServiceError` message; on success
`response.text if response and response.text else "No se pudo generar una respuesta."`
(`none` and the empty string are the falsy cases). -/
def generate_text_model (api : Except String (Option String)) :
    Except String String :=
  match api with
  | .error e => .error ("Error en la API de Gemini: " ++ e)
  | .ok t =>
    match t with
    | none => .ok "No se pudo generar una respuesta."
    | some s =>
      if strFalsy s then .ok "No se pudo generar una respuesta." else .ok s

/-- `GeminiService.generate_response` (gemini_service.py lines 36-93):
assembles the prompt, calls the backend once, returns the stripped text;
any raised error is wrapped in a `ChatServiceError`. -/
def generate_response (user_message : String) (products : List Product)
    (context : Option ChatContext) (api : Except String (Option String)) :
    Except String String :=
  let _prompt := assembledPrompt user_message products context
  match generate_text_model api with
  | .error e => .error ("Error al generar respuesta de Gemini: " ++ e)
  | .ok s => .ok (pyStrip s)

/-! ## SQL chat repository (src/infrastructure/repositories/chat_repository.py)

The database table is modelled as the list of its rows in insertion order.
`ORDER BY timestamp DESC` is modelled as the stable descending sort (SQL
leaves tie order unspecified; stability is the determinization). -/

/-- The rows of the chat table belonging to one session, in insertion order. -/
def sessionRows (db : List ChatMessage) (session_id : String) : List ChatMessage :=
  db.filter (fun m => m.session_id == session_id)

/-- `SQLChatRepository.save_message`: an SQL insert appends a row. -/
def save_message (db : List ChatMessage) (m : ChatMessage) : List ChatMessage :=
  db ++ [m]

/-- `SQLChatRepository.get_session_history` (chat_repository.py lines
50-80): filter by session, order by timestamp descending, `if limit:`
apply it (`None` and `0` are both falsy, so neither limits), fetch,
reverse to oldest-first. `limit` is a nonnegative count here; the source
never passes a negative one and SQL's behaviour on a negative `LIMIT` is
engine-defined. -/
def get_session_history (db : List ChatMessage) (session_id : String)
    (limit : Option Nat) : List ChatMessage :=
  let q := (sessionRows db session_id).mergeSort tsGE
  let q := match limit with
    | none => q
    | some n => if n = 0 then q else q.take n
  q.reverse

/-- `SQLChatRepository.get_recent_messages` (chat_repository.py lines
108-130): filter by session, order by timestamp descending, take `count`,
reverse to oldest-first. -/
def get_recent_messages (db : List ChatMessage) (session_id : String)
    (count : Nat) : List ChatMessage :=
  (((sessionRows db session_id).mergeSort tsGE).take count).reverse

/-- `SQLChatRepository.delete_session_history` (chat_repository.py lines
83-105): count the session's rows, delete each, return the count together
with the table that remains. -/
def delete_session_history (db : List ChatMessage) (session_id : String) :
    Nat × List ChatMessage :=
  let models := sessionRows db session_id
  (models.length, db.filter (fun m => !(m.session_id == session_id)))

/-! ## Chat service (src/application/chat_service.py) -/

/-- `ChatMessageRequestDTO` (dtos.py). -/
structure ChatMessageRequestDTO where
  session_id : String
  message : String

/-- `ChatMessageResponseDTO` (dtos.py). -/
structure ChatMessageResponseDTO where
  session_id : String
  user_message : String
  assistant_message : String
  timestamp : Nat
deriving Repr, DecidableEq

/-- `ChatService.process_message` (chat_service.py lines 46-126).

State is the chat table `db`; `products` is what the product repository
returns; `api` is the generative backend call's outcome (see
`generate_text_model`); `tUser` and `tAssistant` are the two successive
`datetime.now(timezone.utc)` readings taken at steps 5 and 6.

The source's flow, in order: read products, read the 6 most recent turns,
build the context, call the AI service, construct and save the user turn,
construct and save the assistant turn, return the response DTO. Every
raised exception is caught and re-raised as `ChatServiceError(str(e))`,
leaving whatever had already been committed in place. -/
def process_message (db : List ChatMessage) (request : ChatMessageRequestDTO)
    (products : List Product) (api : Except String (Option String))
    (tUser tAssistant : Nat) :
    Except String ChatMessageResponseDTO × List ChatMessage :=
  match generate_response request.message products
      (some { messages := get_recent_messages db request.session_id 6 }) api with
  | .error e => (.error e, db)
  | .ok ai_response =>
    match mkChatMessage none request.session_id "user" request.message tUser with
    | .error e => (.error e, db)
    | .ok user_msg =>
      match mkChatMessage none request.session_id "assistant" ai_response tAssistant with
      | .error e => (.error e, save_message db user_msg)
      | .ok assistant_msg =>
        (.ok { session_id := request.session_id
               user_message := request.message
               assistant_message := ai_response
               timestamp := assistant_msg.timestamp },
         save_message (save_message db user_msg) assistant_msg)

/-- `ChatService.clear_session_history` (chat_service.py lines 160-184):
delegates to the repository's delete. -/
def clear_session_history (db : List ChatMessage) (session_id : String) :
    Nat × List ChatMessage :=
  delete_session_history db session_id

/-! ## Helper notions and shared lemmas -/

/-- `pat` occurs verbatim inside `s`. -/
def strContains (s pat : String) : Prop := pat.data <:+: s.data

instance (s pat : String) : Decidable (strContains s pat) :=
  List.decidableInfix pat.data s.data

/-- "Empty or whitespace-only", the validation condition of the spec. -/
def wsOnly (s : String) : Prop := ∀ c ∈ s.data, c.isWhitespace = true

instance (s : String) : Decidable (wsOnly s) := by
  unfold wsOnly; infer_instance

-- concrete sample data used by witnesses and counterexamples
/-- A valid user turn with timestamp 5. -/
def msgU : ChatMessage := ⟨none, "s1", "user", "Hola", 5⟩

/-- A valid assistant turn with the smaller timestamp 3. -/
def msgA : ChatMessage := ⟨none, "s1", "assistant", "Buenas", 3⟩

theorem dropWs_eq_nil_iff {l : List Char} :
    dropWs l = [] ↔ ∀ c ∈ l, c.isWhitespace = true := by
  simp [dropWs, List.dropWhile_eq_nil_iff]

theorem pyStrip_eq_empty_iff {s : String} : pyStrip s = "" ↔ wsOnly s := by
  unfold pyStrip wsOnly
  constructor
  · intro h c hc
    have h' : (dropWs ((dropWs s.data).reverse)).reverse = [] := congrArg String.data h
    rw [List.reverse_eq_nil_iff, dropWs_eq_nil_iff] at h'
    have hsplit := List.takeWhile_append_dropWhile Char.isWhitespace s.data
    rw [← hsplit] at hc
    rcases List.mem_append.mp hc with h1 | h2
    · exact List.mem_takeWhile_imp h1
    · exact h' c (List.mem_reverse.mpr h2)
  · intro h
    have hnil : dropWs s.data = [] := dropWs_eq_nil_iff.mpr h
    simp only [dropWs] at hnil
    simp only [dropWs, hnil, List.reverse_nil, List.dropWhile_nil]

theorem strFalsy_or_strip_iff {s : String} :
    (strFalsy s || strFalsy (pyStrip s)) = true ↔ wsOnly s := by
  constructor
  · intro h
    rcases Bool.or_eq_true_iff.mp h with h1 | h1
    · have : s = "" := by simpa [strFalsy] using h1
      subst this; intro c hc; simp at hc
    · exact pyStrip_eq_empty_iff.mp (by simpa [strFalsy] using h1)
  · intro h
    have : pyStrip s = "" := pyStrip_eq_empty_iff.mpr h
    simp [strFalsy, this]

/-- Inversion: a successfully constructed `ChatMessage` stores exactly the
inputs. -/
theorem mkChatMessage_ok {id : Option Nat} {sid role msg : String} {ts : Nat}
    {m : ChatMessage} (h : mkChatMessage id sid role msg ts = .ok m) :
    m = ⟨id, sid, role, msg, ts⟩ := by
  unfold mkChatMessage at h
  split at h
  · cases h
  · split at h
    · cases h
    · split at h
      · cases h
      · cases h; rfl

/-- Characterization of when `ChatMessage` construction fails. -/
theorem mkChatMessage_error_iff (id : Option Nat) (sid role msg : String)
    (ts : Nat) :
    (∃ e, mkChatMessage id sid role msg ts = .error e) ↔
      wsOnly sid ∨ wsOnly msg ∨ (role ≠ "user" ∧ role ≠ "assistant") := by
  unfold mkChatMessage
  by_cases h1 : (strFalsy sid || strFalsy (pyStrip sid)) = true
  · simp [h1, strFalsy_or_strip_iff.mp h1]
  · by_cases h2 : (strFalsy msg || strFalsy (pyStrip msg)) = true
    · simp [h1, h2, strFalsy_or_strip_iff.mp h2]
    · by_cases h3 : role ≠ "user" ∧ role ≠ "assistant"
      · simp [h1, h2, h3]
      · simp only [Bool.not_eq_true] at h1 h2
        simp [h1, h2, h3]
        constructor
        · intro hws; exact absurd (strFalsy_or_strip_iff.mpr hws) (by simp [h1])
        · intro hws; exact absurd (strFalsy_or_strip_iff.mpr hws) (by simp [h2])

/-- On valid inputs, construction succeeds with the input fields. -/
theorem mkChatMessage_ok_of_valid {id : Option Nat} {sid role msg : String}
    {ts : Nat} (h1 : ¬ wsOnly sid) (h2 : ¬ wsOnly msg)
    (h3 : role = "user" ∨ role = "assistant") :
    mkChatMessage id sid role msg ts = .ok ⟨id, sid, role, msg, ts⟩ := by
  have g1 : ¬ (strFalsy sid || strFalsy (pyStrip sid)) = true := fun h =>
    h1 (strFalsy_or_strip_iff.mp h)
  have g2 : ¬ (strFalsy msg || strFalsy (pyStrip msg)) = true := fun h =>
    h2 (strFalsy_or_strip_iff.mp h)
  have g3 : ¬ (role ≠ "user" ∧ role ≠ "assistant") := by
    rcases h3 with h | h <;> simp [h]
  unfold mkChatMessage
  simp [g1, g2, g3]

theorem tsLE_trans : ∀ a b c : ChatMessage, tsLE a b → tsLE b c → tsLE a c := by
  intro a b c
  simp only [tsLE, decide_eq_true_eq]
  omega

theorem tsLE_total : ∀ a b : ChatMessage, tsLE a b || tsLE b a := by
  intro a b
  simp only [tsLE, Bool.or_eq_true, decide_eq_true_eq]
  omega

theorem tsGE_trans : ∀ a b c : ChatMessage, tsGE a b → tsGE b c → tsGE a c := by
  intro a b c
  simp only [tsGE, decide_eq_true_eq]
  omega

theorem tsGE_total : ∀ a b : ChatMessage, tsGE a b || tsGE b a := by
  intro a b
  simp only [tsGE, Bool.or_eq_true, decide_eq_true_eq]
  omega

/-- The branch on `len(recent) == 0` is immaterial: `get_recent_messages`
always equals the sorted slice. -/
theorem get_recent_messages_eq_mergeSort (ctx : ChatContext) :
    ctx.get_recent_messages =
      (pySliceFrom ctx.messages (-ctx.max_messages)).mergeSort tsLE := by
  unfold ChatContext.get_recent_messages
  simp only []
  split
  · next h =>
    rw [List.length_eq_zero.mp h]
    simp
  · rfl

/-- Length of a Python suffix slice. -/
theorem pySliceFrom_length (l : List α) (s : Int) :
    (pySliceFrom l s).length =
      l.length - (if s < 0 then max (s + l.length) 0 else min s l.length).toNat := by
  unfold pySliceFrom
  simp [List.length_drop]

/-- For a positive bound the Python slice `l[-n:]` is the trailing
`min n (length l)` elements. -/
theorem pySliceFrom_neg (l : List α) (n : Int) (h : 1 ≤ n) :
    pySliceFrom l (-n) = l.drop (l.length - n.toNat) := by
  unfold pySliceFrom
  have hlt : -n < 0 := by omega
  simp only [hlt, if_true]
  congr 1
  omega

/-- `pat` occurs in `s` whenever `s` splits around it. -/
theorem strContains_of_split {s a pat b : String} (h : s = a ++ pat ++ b) :
    strContains s pat := by
  subst h
  exact ⟨a.data, b.data, by simp⟩

/-! ## Claims -/

/-- C1: if the generation backend call fails (the API call raises), then
`process_message` raises a `ChatServiceError` and the chat table — hence
the history of every session — is exactly what it was before the call:
generation happens before either save, so neither the user turn nor the
assistant turn is persisted. -/
theorem C1_generation_failure_persists_nothing (db : List ChatMessage)
    (request : ChatMessageRequestDTO) (products : List Product) (e : String)
    (tUser tAssistant : Nat) :
    (process_message db request products (.error e) tUser tAssistant).2 = db ∧
    (∃ msg, (process_message db request products (.error e) tUser tAssistant).1
        = .error msg) ∧
    get_session_history
        (process_message db request products (.error e) tUser tAssistant).2
        request.session_id none
      = get_session_history db request.session_id none :=
  ⟨rfl, ⟨_, rfl⟩, rfl⟩

/-- C2: every successful `process_message` call appends the user turn and
then the assistant turn — in that order — to the chat table, the user turn
carrying the request's text and the first clock reading, the assistant
turn carrying the generated text and the second (not earlier) clock
reading; the returned DTO bundles the session id, the original user text,
the generated text, and the assistant turn's timestamp. -/
theorem C2_success_persists_user_then_assistant (db : List ChatMessage)
    (request : ChatMessageRequestDTO) (products : List Product)
    (api : Except String (Option String)) (tUser tAssistant : Nat)
    (resp : ChatMessageResponseDTO) (hclock : tUser ≤ tAssistant)
    (hok : (process_message db request products api tUser tAssistant).1 = .ok resp) :
    ∃ u a, (process_message db request products api tUser tAssistant).2
        = db ++ [u, a] ∧
      u.role = "user" ∧ u.session_id = request.session_id ∧
      u.message = request.message ∧ u.timestamp = tUser ∧
      a.role = "assistant" ∧ a.session_id = request.session_id ∧
      a.timestamp = tAssistant ∧ u.timestamp ≤ a.timestamp ∧
      resp.session_id = request.session_id ∧
      resp.user_message = request.message ∧
      resp.assistant_message = a.message ∧
      resp.timestamp = a.timestamp := by
  rcases hgen : generate_response request.message products
      (some { messages := get_recent_messages db request.session_id 6 }) api
    with e | ai_response
  · simp [process_message, hgen] at hok
  · rcases hu : mkChatMessage none request.session_id "user" request.message tUser
      with e | user_msg
    · simp [process_message, hgen, hu] at hok
    · rcases ha : mkChatMessage none request.session_id "assistant" ai_response
          tAssistant with e | assistant_msg
      · simp [process_message, hgen, hu, ha] at hok
      · simp only [process_message, hgen, hu, ha, Except.ok.injEq] at hok ⊢
        rcases mkChatMessage_ok hu with rfl
        rcases mkChatMessage_ok ha with rfl
        subst hok
        refine ⟨⟨none, request.session_id, "user", request.message, tUser⟩,
          ⟨none, request.session_id, "assistant", ai_response, tAssistant⟩,
          ?_, rfl, rfl, rfl, rfl, rfl, rfl, rfl, hclock, rfl, rfl, rfl, rfl⟩
        simp [save_message]

/-- C3 counterexample: with bound `max_size = 0` and one stored turn, the
claim demands an empty window, but `messages[-0:]` is `messages[0:]`, the
whole list, so the window has length 1. -/
theorem C3_counterexample_zero_bound_returns_all :
    ¬ ((ChatContext.get_recent_messages ⟨[msgU], 0⟩).length = 0) := by
  have h : ChatContext.get_recent_messages ⟨[msgU], 0⟩ = [msgU] := by
    rw [get_recent_messages_eq_mergeSort]
    simp [pySliceFrom]
  simp [h]

/-- C3 (amended): the recent window's length is `min (len T) n` for every
bound `n ≥ 1`; for `n = 0` the slice `[-0:]` is the whole sequence, so the
length is `len T`; for `n < 0` the slice `[-n:]` drops the first `|n|`
elements, so the length is `len T - |n|` (truncated at 0). -/
theorem C3_amended_recent_window_length (T : List ChatMessage) (n : Int) :
    (ChatContext.get_recent_messages ⟨T, n⟩).length =
      if 1 ≤ n then min T.length n.toNat else T.length - n.natAbs := by
  rw [get_recent_messages_eq_mergeSort]
  rw [List.length_mergeSort]
  rw [pySliceFrom_length]
  dsimp only
  split
  · next h =>
    split
    · next h2 => omega
    · next h2 => omega
  · next h =>
    split
    · next h2 => omega
    · next h2 => omega

/-- C4: for every bound `n ≥ 1` the recent window is a permutation of the
trailing `min n (len T)` elements of the input, it is sorted by timestamp
ascending regardless of the input order, the sort is stable (breaking
timestamp ties by position in the pre-sort slice yields the same output),
and an empty input yields an empty output. -/
theorem C4_recent_window_trailing_sorted_stable (T : List ChatMessage)
    (n : Int) (h : 1 ≤ n) :
    (ChatContext.get_recent_messages ⟨T, n⟩).Perm
        (T.drop (T.length - n.toNat)) ∧
    List.Pairwise (fun a b => a.timestamp ≤ b.timestamp)
        (ChatContext.get_recent_messages ⟨T, n⟩) ∧
    (ChatContext.get_recent_messages ⟨T, n⟩ =
      (List.mergeSort ((T.drop (T.length - n.toNat)).enum)
          (List.enumLE tsLE)).map (fun p => p.2)) ∧
    (T = [] → ChatContext.get_recent_messages ⟨T, n⟩ = []) := by
  have hslice : pySliceFrom T (-n) = T.drop (T.length - n.toNat) :=
    pySliceFrom_neg T n h
  have heq : ChatContext.get_recent_messages ⟨T, n⟩ =
      (T.drop (T.length - n.toNat)).mergeSort tsLE := by
    rw [get_recent_messages_eq_mergeSort]
    simp only [hslice]
  refine ⟨?_, ?_, ?_, ?_⟩
  · rw [heq]
    exact List.mergeSort_perm _ _
  · rw [heq]
    exact (List.sorted_mergeSort tsLE_trans tsLE_total _).imp
      (fun hab => by simpa [tsLE] using hab)
  · rw [heq, List.mergeSort_enum]
  · intro hT
    subst hT
    rw [heq]
    simp

/-- C4 witness: a two-element store delivered in reverse timestamp order,
bound 6. -/
theorem C4_recent_window_trailing_sorted_stable_witness :
    List.Pairwise (fun a b => a.timestamp ≤ b.timestamp)
        (ChatContext.get_recent_messages ⟨[msgU, msgA], 6⟩) ∧
    (ChatContext.get_recent_messages ⟨[msgU, msgA], 6⟩).Perm
        ([msgU, msgA].drop ([msgU, msgA].length - (6 : Int).toNat)) :=
  ⟨(C4_recent_window_trailing_sorted_stable [msgU, msgA] 6 (by decide)).2.1,
   (C4_recent_window_trailing_sorted_stable [msgU, msgA] 6 (by decide)).1⟩

/-- C5: constructing a `ChatMessage` fails with a `ValueError` if and only
if the session id is empty or whitespace-only, or the text is empty or
whitespace-only, or the role is neither "user" nor "assistant"; on valid
inputs construction succeeds and the stored fields equal the inputs. -/
theorem C5_turn_validation (id : Option Nat) (sid role msg : String) (ts : Nat) :
    ((∃ e, mkChatMessage id sid role msg ts = .error e) ↔
      wsOnly sid ∨ wsOnly msg ∨ (role ≠ "user" ∧ role ≠ "assistant")) ∧
    (∀ m, mkChatMessage id sid role msg ts = .ok m →
      m.id = id ∧ m.session_id = sid ∧ m.role = role ∧ m.message = msg ∧
        m.timestamp = ts) := by
  refine ⟨mkChatMessage_error_iff id sid role msg ts, ?_⟩
  intro m h
  rcases mkChatMessage_ok h with rfl
  exact ⟨rfl, rfl, rfl, rfl, rfl⟩

/-- C5 witness: valid inputs stored unchanged, at a concrete turn. -/
theorem C5_turn_validation_witness :
    (ChatMessage.mk none "s1" "user" "Hola" 7).id = none ∧
    (ChatMessage.mk none "s1" "user" "Hola" 7).session_id = ("s1" : String) ∧
    (ChatMessage.mk none "s1" "user" "Hola" 7).role = ("user" : String) ∧
    (ChatMessage.mk none "s1" "user" "Hola" 7).message = ("Hola" : String) ∧
    (ChatMessage.mk none "s1" "user" "Hola" 7).timestamp = 7 :=
  (C5_turn_validation none "s1" "user" "Hola" 7).2 ⟨none, "s1", "user", "Hola", 7⟩
    (by simp [mkChatMessage, strFalsy, pyStrip, dropWs])

set_option maxRecDepth 100000 in
/-- C6 counterexample: `process_message` always passes a `ChatContext`
object, which is truthy even with no turns, so for a session with no prior
history the assembled prompt's prior-conversation section is empty and the
"no prior messages" marker does not appear. -/
theorem C6_counterexample_empty_transcript_no_marker :
    ¬ strContains (assembledPrompt "Hola" [] (some ⟨[], 6⟩))
        "No hay mensajes previos." := by
  decide

/-- C6 (amended): the "no prior messages" marker appears in the assembled
prompt exactly when no context object is supplied (Python `None`, the only
falsy value there); a supplied context with an empty message list renders
an empty prior-conversation section instead. -/
theorem C6_amended_marker_only_without_context (u : String)
    (products : List Product) :
    strContains (assembledPrompt u products none) "No hay mensajes previos." ∧
    (∀ n : Int, ChatContext.format_for_prompt ⟨[], n⟩ = "") := by
  constructor
  · refine strContains_of_split
      (a := promptPart1 ++ format_products_info products ++ promptPart2)
      (b := promptPart3 ++ u ++ promptPart4) ?_
    simp [assembledPrompt, promptTemplate, contextTextOf, String.append_assoc]
  · intro n
    have h : ChatContext.get_recent_messages ⟨[], n⟩ = [] := by
      rw [get_recent_messages_eq_mergeSort]
      simp [pySliceFrom]
    rw [ChatContext.format_for_prompt, h]
    rfl

/-- C7: on a successful backend call the returned text is stripped of
surrounding whitespace before use; when the successful result's text is
absent (`None`) or empty, the fixed placeholder is substituted, the
request does not fail, and — with a valid request — both turns are still
persisted exactly as on an ordinary success, the assistant turn carrying
the placeholder. -/
theorem C7_empty_success_uses_placeholder (u : String)
    (products : List Product) (ctx : Option ChatContext) (s : String)
    (db : List ChatMessage) (request : ChatMessageRequestDTO) (tUser tAssistant : Nat)
    (hsid : ¬ wsOnly request.session_id) (hmsg : ¬ wsOnly request.message) :
    generate_response u products ctx (.ok none) =
      .ok "No se pudo generar una respuesta." ∧
    generate_response u products ctx (.ok (some "")) =
      .ok "No se pudo generar una respuesta." ∧
    (s ≠ "" → generate_response u products ctx (.ok (some s)) = .ok (pyStrip s)) ∧
    process_message db request products (.ok none) tUser tAssistant =
      (.ok { session_id := request.session_id
             user_message := request.message
             assistant_message := "No se pudo generar una respuesta."
             timestamp := tAssistant },
       db ++ [⟨none, request.session_id, "user", request.message, tUser⟩,
              ⟨none, request.session_id, "assistant",
                "No se pudo generar una respuesta.", tAssistant⟩]) := by
  have hplaceholder : pyStrip "No se pudo generar una respuesta." =
      "No se pudo generar una respuesta." := by decide
  refine ⟨?_, ?_, ?_, ?_⟩
  · simp [generate_response, generate_text_model, hplaceholder]
  · simp [generate_response, generate_text_model, strFalsy, hplaceholder]
  · intro hs
    simp [generate_response, generate_text_model, strFalsy, hs]
  · have hgen : generate_response request.message products
        (some { messages := get_recent_messages db request.session_id 6 })
        (.ok none) = .ok "No se pudo generar una respuesta." := by
      simp [generate_response, generate_text_model, hplaceholder]
    have hu : mkChatMessage none request.session_id "user" request.message tUser
        = .ok ⟨none, request.session_id, "user", request.message, tUser⟩ :=
      mkChatMessage_ok_of_valid hsid hmsg (Or.inl rfl)
    have hph : ¬ wsOnly ("No se pudo generar una respuesta." : String) := by decide
    have ha : mkChatMessage none request.session_id "assistant"
        "No se pudo generar una respuesta." tAssistant
        = .ok ⟨none, request.session_id, "assistant",
            "No se pudo generar una respuesta.", tAssistant⟩ :=
      mkChatMessage_ok_of_valid hsid hph (Or.inr rfl)
    simp only [process_message, hgen, hu, ha, save_message]
    simp

/-- C7 witness: a concrete empty-text success, over an empty store. -/
theorem C7_empty_success_uses_placeholder_witness :
    process_message [] ⟨"s1", "Hola"⟩ [] (.ok none) 1 2 =
      (.ok { session_id := "s1", user_message := "Hola",
             assistant_message := "No se pudo generar una respuesta.",
             timestamp := 2 },
       [] ++ [⟨none, "s1", "user", "Hola", 1⟩,
              ⟨none, "s1", "assistant", "No se pudo generar una respuesta.", 2⟩]) :=
  (C7_empty_success_uses_placeholder "x" [] none "y" [] ⟨"s1", "Hola"⟩ 1 2
    (by decide) (by decide)).2.2.2

theorem length_filter_add_length_filter_not (l : List α) (p : α → Bool) :
    (l.filter p).length + (l.filter (fun x => !(p x))).length = l.length := by
  induction l with
  | nil => rfl
  | cons x xs ih =>
    by_cases hx : p x = true <;> simp [List.filter_cons, hx, ← ih] <;> omega

/-- C8 counterexample: `get_session_history` with `limit = 0` must return
at most 0 turns by the claim, but `if limit:` treats 0 as "no limit" and
the full history comes back. -/
theorem C8_counterexample_zero_limit_returns_all :
    ¬ ((get_session_history [msgU] "s1" (some 0)).length ≤ 0) := by
  have h : get_session_history [msgU] "s1" (some 0) = [msgU] := by
    unfold get_session_history
    simp [sessionRows, msgU]
  simp [h]

/-- C8 (amended): for every limit `n ≥ 1`, `get_session_history` returns
exactly `min n (number of session rows)` turns, sorted oldest-first, all
belonging to the session, and each at least as recent as every row it
left out; with no limit it returns the full session history oldest-first;
a limit of 0 is falsy in `if limit:` and behaves exactly like no limit. -/
theorem C8_amended_history_limit (db : List ChatMessage) (sid : String)
    (n : Nat) (h : 1 ≤ n) :
    (get_session_history db sid (some n)).length
        = min n (sessionRows db sid).length ∧
    List.Pairwise (fun a b => a.timestamp ≤ b.timestamp)
        (get_session_history db sid (some n)) ∧
    (∀ x ∈ get_session_history db sid (some n), x ∈ sessionRows db sid) ∧
    (∀ x ∈ get_session_history db sid (some n),
      ∀ y ∈ ((sessionRows db sid).mergeSort tsGE).drop n,
        y.timestamp ≤ x.timestamp) ∧
    (get_session_history db sid none).Perm (sessionRows db sid) ∧
    List.Pairwise (fun a b => a.timestamp ≤ b.timestamp)
        (get_session_history db sid none) ∧
    get_session_history db sid (some 0) = get_session_history db sid none := by
  have hn : ¬ n = 0 := by omega
  have hsome : get_session_history db sid (some n) =
      (((sessionRows db sid).mergeSort tsGE).take n).reverse := by
    unfold get_session_history
    simp [hn]
  have hnone : get_session_history db sid none =
      ((sessionRows db sid).mergeSort tsGE).reverse := rfl
  have hsorted : List.Pairwise (fun a b => tsGE a b = true)
      ((sessionRows db sid).mergeSort tsGE) :=
    List.sorted_mergeSort tsGE_trans tsGE_total _
  refine ⟨?_, ?_, ?_, ?_, ?_, ?_, ?_⟩
  · rw [hsome]
    simp
  · rw [hsome]
    rw [List.pairwise_reverse]
    exact ((hsorted.sublist (List.take_sublist n _)).imp
      (fun hab => by simpa [tsGE] using hab))
  · intro x hx
    rw [hsome, List.mem_reverse] at hx
    have := (List.take_sublist n _).subset hx
    rwa [List.mem_mergeSort] at this
  · intro x hx y hy
    rw [hsome, List.mem_reverse] at hx
    have hsplit := List.take_append_drop n ((sessionRows db sid).mergeSort tsGE)
    rw [← hsplit] at hsorted
    have := (List.pairwise_append.mp hsorted).2.2 x hx y hy
    simpa [tsGE] using this
  · rw [hnone]
    exact (List.reverse_perm _).trans (List.mergeSort_perm _ _)
  · rw [hnone, List.pairwise_reverse]
    exact hsorted.imp (fun hab => by simpa [tsGE] using hab)
  · unfold get_session_history
    simp

/-- C8 witness: limit 1 on a one-row session. -/
theorem C8_amended_history_limit_witness :
    (get_session_history [msgU] "s1" (some 1)).length
        = min 1 (sessionRows [msgU] "s1").length :=
  (C8_amended_history_limit [msgU] "s1" 1 (by decide)).1

/-- C9: `clear_history` returns the number of turns deleted (the size drop
of the table), leaves the session empty, and a second call on the
now-empty session returns 0 without changing anything — the operation is
idempotent. -/
theorem C9_clear_history_idempotent (db : List ChatMessage) (sid : String) :
    (clear_session_history db sid).1
        = db.length - (clear_session_history db sid).2.length ∧
    sessionRows (clear_session_history db sid).2 sid = [] ∧
    clear_session_history (clear_session_history db sid).2 sid
        = (0, (clear_session_history db sid).2) := by
  unfold clear_session_history delete_session_history
  refine ⟨?_, ?_, ?_⟩
  · have := length_filter_add_length_filter_not db
      (fun m => m.session_id == sid)
    simp only [sessionRows]
    omega
  · simp only [sessionRows, List.filter_filter]
    rw [List.filter_eq_nil_iff]
    intro m _
    by_cases hm : m.session_id == sid <;> simp [hm]
  · simp only [sessionRows, List.filter_filter, Prod.mk.injEq]
    refine ⟨?_, ?_⟩
    · rw [List.length_eq_zero, List.filter_eq_nil_iff]
      intro m _
      by_cases hm : m.session_id == sid <;> simp [hm]
    · congr 1
      funext m
      by_cases hm : m.session_id == sid <;> simp [hm]

/-- C10 counterexample: with `max_messages = 0` and one message, the
rendered transcript has one line (= newline count + 1), exceeding the
bound — `format_for_prompt` does re-apply the trimming, but the trimming
itself does not bound the output when the bound is 0 (`[-0:]` keeps
everything). -/
theorem C10_counterexample_zero_bound_transcript :
    ¬ ((ChatContext.format_for_prompt ⟨[msgU], 0⟩).data.count '\n' + 1 ≤
        (ChatContext.mk [msgU] 0).max_messages.toNat) := by
  have hrec : ChatContext.get_recent_messages ⟨[msgU], 0⟩ = [msgU] := by
    rw [get_recent_messages_eq_mergeSort]
    simp [pySliceFrom]
  have h : ChatContext.format_for_prompt ⟨[msgU], 0⟩ = "Usuario: Hola" := by
    unfold ChatContext.format_for_prompt
    rw [hrec]
    rfl
  rw [h]
  decide

/-- C10 (amended): rendering the transcript re-applies the recent-window
trimming and the timestamp re-sort, so for every bound `max_messages ≥ 1`
the transcript is the newline-join of exactly `min (len messages) max`
rendered turn entries, the retained turns appearing in timestamp-ascending
order regardless of the order the caller supplied; a bound ≤ 0 does not
bound the entry count (0 retains every turn). -/
theorem C10_amended_transcript_trimmed_sorted (msgs : List ChatMessage)
    (n : Int) (h : 1 ≤ n) :
    ChatContext.format_for_prompt ⟨msgs, n⟩ =
      String.intercalate "\n"
        ((ChatContext.get_recent_messages ⟨msgs, n⟩).map renderTurn) ∧
    ((ChatContext.get_recent_messages ⟨msgs, n⟩).map renderTurn).length
        = min msgs.length n.toNat ∧
    List.Pairwise (fun a b => a.timestamp ≤ b.timestamp)
        (ChatContext.get_recent_messages ⟨msgs, n⟩) := by
  have heq : ChatContext.get_recent_messages ⟨msgs, n⟩ =
      (msgs.drop (msgs.length - n.toNat)).mergeSort tsLE := by
    rw [get_recent_messages_eq_mergeSort]
    dsimp only
    rw [pySliceFrom_neg msgs n h]
  refine ⟨rfl, ?_, ?_⟩
  · rw [List.length_map, heq, List.length_mergeSort, List.length_drop]
    omega
  · rw [heq]
    exact (List.sorted_mergeSort tsLE_trans tsLE_total _).imp
      (fun hab => by simpa [tsLE] using hab)

/-- C10 witness: bound 1 over two out-of-order messages. -/
theorem C10_amended_transcript_trimmed_sorted_witness :
    ((ChatContext.get_recent_messages ⟨[msgU, msgA], 1⟩).map renderTurn).length
        = min ([msgU, msgA].length) ((1 : Int)).toNat :=
  (C10_amended_transcript_trimmed_sorted [msgU, msgA] 1 (by decide)).2.1

/-- C2 witness: a concrete successful run with an empty store. -/
theorem C2_success_persists_user_then_assistant_witness :
    ∃ u a, (process_message [] ⟨"s1", "Hola"⟩ []
        (.ok (some "Tenemos Pegasus")) 1 2).2 = [] ++ [u, a] ∧
      u.role = "user" ∧ u.session_id = ("s1" : String) ∧
      u.message = ("Hola" : String) ∧ u.timestamp = 1 ∧
      a.role = "assistant" ∧ a.session_id = ("s1" : String) ∧
      a.timestamp = 2 ∧ u.timestamp ≤ a.timestamp ∧
      (ChatMessageResponseDTO.mk "s1" "Hola" "Tenemos Pegasus" 2).session_id
        = ("s1" : String) ∧
      (ChatMessageResponseDTO.mk "s1" "Hola" "Tenemos Pegasus" 2).user_message
        = ("Hola" : String) ∧
      (ChatMessageResponseDTO.mk "s1" "Hola" "Tenemos Pegasus" 2).assistant_message
        = a.message ∧
      (ChatMessageResponseDTO.mk "s1" "Hola" "Tenemos Pegasus" 2).timestamp
        = a.timestamp :=
  C2_success_persists_user_then_assistant [] ⟨"s1", "Hola"⟩ []
    (.ok (some "Tenemos Pegasus")) 1 2 ⟨"s1", "Hola", "Tenemos Pegasus", 2⟩
    (by decide)
    (by simp [process_message, get_recent_messages, sessionRows,
          generate_response, generate_text_model, mkChatMessage, save_message,
          strFalsy, pyStrip, dropWs])
